import Mathlib

/-
Shallow embedding of the FLEMMINDO/fastapi-online-shop backend.

The app/ sources embed here as executable Lean definitions:
HTTP responses become an explicit `HttpError` structure or plain result
records, the SQLAlchemy store becomes an in-memory `Db` of lists queried
with `List.find?` / `List.filter`, and the PyJWT collaborator becomes a
symbolic token type whose `signed` constructor stands for a token signed
with the server's SECRET_KEY.

app/auth.py, app/config.py and the users/products/categories model files
are imported by the routers but are not present among the sources; the
definitions they would provide are modelled from the specification and
each carries a doc comment saying so.
-/

namespace Shop

/-- An HTTP error response as raised via FastAPI's HTTPException:
status code, detail string, and whether the WWW-Authenticate Bearer
header is attached. -/
structure HttpError where
  status : Nat
  detail : String
  wwwAuthenticate : Bool
deriving Repr, DecidableEq

/-- The single generic 401 built at the top of both refresh-token
endpoints in app/routers/users.py. -/
def credentials_exception : HttpError :=
  { status := 401
    detail := "Could not validate refresh token"
    wwwAuthenticate := true }

/-- The 401 raised by the login endpoint on any credential failure. -/
def incorrect_credentials : HttpError :=
  { status := 401
    detail := "Incorrect email or password"
    wwwAuthenticate := true }

/-- Claims carried in a JWT payload: the routers read sub, role, id and
token_type with dict.get (absent keys give none), and PyJWT checks exp. -/
structure JwtPayload where
  sub : Option String
  role : Option String
  uid : Option Nat
  token_type : Option String
  exp : Nat
deriving Repr, DecidableEq

/-- A bearer token as the verifier sees it: either a token whose
signature verifies under the server's SECRET_KEY, carrying a payload, or
an unparsable / wrongly-signed string. -/
inductive Token where
  | signed (payload : JwtPayload)
  | invalid (raw : String)
deriving Repr, DecidableEq

/-- Outcome of jwt.decode as used by the routers: a payload, an
ExpiredSignatureError, or any other PyJWTError. -/
inductive DecodeResult where
  | ok (payload : JwtPayload)
  | expiredSignature
  | error
deriving Repr, DecidableEq

/-- Models the external PyJWT collaborator: jwt.decode(token, SECRET_KEY,
algorithms=[ALGORITHM]) at current time now. A badly signed or
unparsable token raises PyJWTError; a correctly signed token whose exp
claim is in the past raises ExpiredSignatureError; otherwise the payload
is returned. -/
def jwt_decode (tok : Token) (now : Nat) : DecodeResult :=
  match tok with
  | .signed p => if p.exp < now then .expiredSignature else .ok p
  | .invalid _ => .error

/-- Modelled from the spec: app/config.py is absent from the sources.
Section 4.2 fixes only that the access TTL is minutes and the refresh
TTL days, with REFRESH_TTL much larger; the concrete values are
arbitrary representatives. -/
def ACCESS_TOKEN_EXPIRE : Nat := 30

/-- Modelled from the spec: refresh-token lifetime, days in minutes (see
ACCESS_TOKEN_EXPIRE). -/
def REFRESH_TOKEN_EXPIRE : Nat := 10080

/-- Modelled from the spec: app/auth.py is absent from the sources.
Section 4.2 issue_access embeds subject, role, numeric id and
expiry = now + ACCESS_TTL, signed with the server secret; section 4.4
has the access token carry no token_type marker. -/
def create_access_token (sub role : String) (uid : Nat) (now : Nat) : Token :=
  .signed
    { sub := some sub
      role := some role
      uid := some uid
      token_type := none
      exp := now + ACCESS_TOKEN_EXPIRE }

/-- Modelled from the spec: app/auth.py is absent from the sources.
Section 4.2 issue_refresh embeds the same claims plus
token_type = "refresh" and expiry = now + REFRESH_TTL. -/
def create_refresh_token (sub role : String) (uid : Nat) (now : Nat) : Token :=
  .signed
    { sub := some sub
      role := some role
      uid := some uid
      token_type := some "refresh"
      exp := now + REFRESH_TOKEN_EXPIRE }

/-- Modelled from the spec: app/auth.py is absent from the sources.
Section 4.1 asks for a one-way salted digest; the symbolic tag keeps the
digest injective on plaintexts, which is all the routers observe. -/
def hash_password (plaintext : String) : String :=
  String.append "pbkdf2$" plaintext

/-- Modelled from the spec: app/auth.py is absent from the sources.
Section 4.1 verify(plaintext, digest) is true iff plaintext hashes to
the given digest. -/
def verify_password (plaintext digest : String) : Bool :=
  hash_password plaintext == digest

/-- Modelled from the spec: app/models/users.py is absent from the
sources. Account row per section 3: id, unique email, password hash,
role string, active flag (accounts are created active and deactivation
is the only removal path). -/
structure User where
  id : Nat
  email : String
  hashed_password : String
  role : String
  is_active : Bool
deriving Repr, DecidableEq

/-- Modelled from the spec: app/models/products.py is absent from the
sources. Product row fields as read and written by
app/routers/products.py and app/schemas.py; price and rating are kept as
exact rationals. -/
structure Product where
  id : Nat
  name : String
  description : Option String
  price : Rat
  image_url : Option String
  stock : Nat
  category_id : Nat
  seller_id : Nat
  rating : Rat
  is_active : Bool
deriving Repr, DecidableEq

/-- Modelled from the spec: app/models/categories.py is absent from the
sources. Category row fields as read by the routers and app/schemas.py. -/
structure Category where
  id : Nat
  name : String
  parent_id : Option Nat
  is_active : Bool
deriving Repr, DecidableEq

/-- Review row per app/models/reviews.py: id, user_id, product_id,
comment, comment_time, change_time, grade (checked 1..5 at the table),
is_active defaulting true. Timestamps are ticks of the request clock. -/
structure Review where
  id : Nat
  user_id : Nat
  product_id : Nat
  comment : String
  comment_time : Nat
  change_time : Nat
  grade : Int
  is_active : Bool
deriving Repr, DecidableEq

/-- The persistent store the routers query: the users, products,
categories and reviews tables. -/
structure Db where
  users : List User
  products : List Product
  categories : List Category
  reviews : List Review
deriving Repr, DecidableEq

/-- The select(User).where(email == e, is_active == True) followed by
.first() that login and both refresh endpoints run. -/
def findActiveUserByEmail (db : Db) (email : String) : Option User :=
  db.users.find? (fun u => u.email == email && u.is_active)

/-- Body of POST /users/ per app/schemas.py UserCreate (the role pattern
admits only "buyer" or "seller"; validation happens in the HTTP
adapter). -/
structure UserCreate where
  email : String
  password : String
  role : String
deriving Repr, DecidableEq

/-- Autoincrement primary key the store assigns on insert, modelled as
one past the largest id in the table. -/
def freshUserId (db : Db) : Nat :=
  (db.users.map (fun u => u.id)).foldr max 0 + 1

/-- The row create_user inserts for a registration body. -/
def newUserRow (db : Db) (u : UserCreate) : User :=
  { id := freshUserId db
    email := u.email
    hashed_password := hash_password u.password
    role := u.role
    is_active := true }

/-- POST /users/ (app/routers/users.py create_user): reject with 409 if
any row already has the email, else insert one new active row with the
hashed password and given role. -/
def create_user (db : Db) (u : UserCreate) : Db × Except HttpError User :=
  match db.users.find? (fun x => x.email == u.email) with
  | some _ =>
    (db, .error { status := 409, detail := "Email already registered", wwwAuthenticate := false })
  | none =>
    ({ db with users := db.users ++ [newUserRow db u] }, .ok (newUserRow db u))

/-- Response body of POST /users/token. -/
structure TokenPair where
  access_token : Token
  refresh_token : Token
  token_type : String
deriving Repr, DecidableEq

/-- POST /users/token (app/routers/users.py login): look up the first
active row with the form's username as email; if none, or the password
does not verify against its hash, raise the generic 401; otherwise mint
an access and a refresh token carrying sub/role/id. -/
def login (db : Db) (username password : String) (now : Nat) : Except HttpError TokenPair :=
  match findActiveUserByEmail db username with
  | none => .error incorrect_credentials
  | some user =>
    if verify_password password user.hashed_password then
      .ok
        { access_token := create_access_token user.email user.role user.id now
          refresh_token := create_refresh_token user.email user.role user.id now
          token_type := "bearer" }
    else .error incorrect_credentials

/-- Response body of POST /users/refresh-token. -/
structure RefreshResponse where
  refresh_token : Token
  token_type : String
deriving Repr, DecidableEq

/-- Response body of POST /users/access-token. -/
structure AccessResponse where
  access_token : Token
  token_type : String
deriving Repr, DecidableEq

/-- POST /users/refresh-token (app/routers/users.py refresh_token):
decode the presented token (expired or malformed raises the generic
401), require a sub claim and token_type == "refresh" (else the same
401), require an active account with that email (else the same 401),
then return a freshly minted refresh token. No table is written. -/
def refresh_token (db : Db) (old_refresh_token : Token) (now : Nat) :
    Db × Except HttpError RefreshResponse :=
  match jwt_decode old_refresh_token now with
  | .expiredSignature => (db, .error credentials_exception)
  | .error => (db, .error credentials_exception)
  | .ok payload =>
    match payload.sub with
    | none => (db, .error credentials_exception)
    | some email =>
      if payload.token_type = some "refresh" then
        match findActiveUserByEmail db email with
        | none => (db, .error credentials_exception)
        | some user =>
          (db, .ok
            { refresh_token := create_refresh_token user.email user.role user.id now
              token_type := "bearer" })
      else (db, .error credentials_exception)

/-- POST /users/access-token (app/routers/users.py access_token): the
same verification pipeline as refresh_token — decode, require sub and
token_type == "refresh", require an active account — each failure the
same generic 401, then return a freshly minted access token. -/
def access_token (db : Db) (body_refresh_token : Token) (now : Nat) :
    Db × Except HttpError AccessResponse :=
  match jwt_decode body_refresh_token now with
  | .expiredSignature => (db, .error credentials_exception)
  | .error => (db, .error credentials_exception)
  | .ok payload =>
    match payload.sub with
    | none => (db, .error credentials_exception)
    | some email =>
      if payload.token_type = some "refresh" then
        match findActiveUserByEmail db email with
        | none => (db, .error credentials_exception)
        | some user =>
          (db, .ok
            { access_token := create_access_token user.email user.role user.id now
              token_type := "bearer" })
      else (db, .error credentials_exception)

/-- A signed token not yet past its exp claim; an unparsable token is
never valid. -/
def tokenLive (tok : Token) (now : Nat) : Prop :=
  match tok with
  | .signed p => now ≤ p.exp
  | .invalid _ => False

instance (tok : Token) (now : Nat) : Decidable (tokenLive tok now) := by
  unfold tokenLive
  cases tok with
  | signed p => exact Nat.decLe now p.exp
  | invalid s => exact instDecidableFalse

/-- Modelled from the spec: app/auth.py is absent from the sources.
Section 4.4 Principal Resolver: verify the bearer token per section 4.3
requiring token_type absent or "access", look up the account by the sub
email failing when none matches or the account is inactive, surfacing
every failure as a generic 401. -/
def get_current_user (db : Db) (tok : Token) (now : Nat) : Except HttpError User :=
  match jwt_decode tok now with
  | .expiredSignature => .error credentials_exception
  | .error => .error credentials_exception
  | .ok payload =>
    match payload.sub with
    | none => .error credentials_exception
    | some email =>
      if payload.token_type = none ∨ payload.token_type = some "access" then
        match findActiveUserByEmail db email with
        | none => .error credentials_exception
        | some user => .ok user
      else .error credentials_exception

/-- Modelled from the spec: app/auth.py is absent from the sources.
Section 4.5 require_seller: resolve the principal, then 403 Forbidden
unless the resolved account's role is seller. -/
def get_current_seller (db : Db) (tok : Token) (now : Nat) : Except HttpError User :=
  match get_current_user db tok now with
  | .error e => .error e
  | .ok user =>
    if user.role == "seller" then .ok user
    else .error { status := 403, detail := "Forbidden", wwwAuthenticate := false }

/-- Body of POST and PUT /products per app/schemas.py ProductCreate.
The two optional fields carry their schema default None when the client
omits them. -/
structure ProductCreate where
  name : String
  description : Option String
  price : Rat
  image_url : Option String
  stock : Nat
  category_id : Nat
deriving Repr, DecidableEq

/-- The field update PUT /products/\x7bproduct_id\x7d applies to the
product row (update ... values(**product.model_dump())). -/
def applyProductUpdate (x : Product) (p : ProductCreate) : Product :=
  { x with
    name := p.name
    description := p.description
    price := p.price
    image_url := p.image_url
    stock := p.stock
    category_id := p.category_id }

/-- Select of the active product with the given id, as every product
mutation runs first. -/
def findActiveProduct (db : Db) (product_id : Nat) : Option Product :=
  db.products.find? (fun x => x.id == product_id && x.is_active)

/-- Select of the active category with the given id. -/
def findActiveCategory (db : Db) (category_id : Nat) : Option Category :=
  db.categories.find? (fun c => c.id == category_id && c.is_active)

/-- PUT /products/\x7bproduct_id\x7d handler (app/routers/products.py
update_product) after the seller gate resolved current_user: 404 when no
active product has the id, 403 when its seller_id is not the current
user's id, 400 when the new category is missing or inactive, else update
the row and return it. -/
def update_product (db : Db) (product_id : Nat) (product : ProductCreate)
    (current_user : User) : Db × Except HttpError Product :=
  match findActiveProduct db product_id with
  | none =>
    (db, .error { status := 404
                  detail := "Product with id " ++ toString product_id ++ " not found or inactive"
                  wwwAuthenticate := false })
  | some db_product =>
    if db_product.seller_id ≠ current_user.id then
      (db, .error { status := 403
                    detail := "You can only update your own products"
                    wwwAuthenticate := false })
    else
      match findActiveCategory db product.category_id with
      | none =>
        (db, .error { status := 400
                      detail := "Category for product " ++ toString product_id ++ " not found or inactive"
                      wwwAuthenticate := false })
      | some _ =>
        let products2 := db.products.map fun x =>
          if x.id == product_id then applyProductUpdate x product else x
        ({ db with products := products2 }, .ok (applyProductUpdate db_product product))

/-- Status body returned by the soft-delete endpoints. -/
structure StatusMessage where
  status : String
  message : String
deriving Repr, DecidableEq

/-- DELETE /products/\x7bproduct_id\x7d handler (app/routers/products.py
delete_product) after the seller gate resolved current_user: 404 when no
active product has the id, 403 when its seller_id is not the current
user's id, else mark the row inactive. -/
def delete_product (db : Db) (product_id : Nat) (current_user : User) :
    Db × Except HttpError StatusMessage :=
  match findActiveProduct db product_id with
  | none =>
    (db, .error { status := 404
                  detail := "Product with id " ++ toString product_id ++ " not found or inactive"
                  wwwAuthenticate := false })
  | some db_product =>
    if db_product.seller_id ≠ current_user.id then
      (db, .error { status := 403
                    detail := "You can only delete your own products"
                    wwwAuthenticate := false })
    else
      let products2 := db.products.map fun x =>
        if x.id == product_id then { x with is_active := false } else x
      ({ db with products := products2 },
       .ok { status := "success", message := "Product marked as inactive" })

/-- PUT /products/\x7bproduct_id\x7d as mounted: the get_current_seller
dependency runs first and its failure is the response; otherwise the
handler runs with the resolved user. -/
def update_product_route (db : Db) (product_id : Nat) (product : ProductCreate)
    (tok : Token) (now : Nat) : Db × Except HttpError Product :=
  match get_current_seller db tok now with
  | .error e => (db, .error e)
  | .ok current_user => update_product db product_id product current_user

/-- DELETE /products/\x7bproduct_id\x7d as mounted, gate first. -/
def delete_product_route (db : Db) (product_id : Nat) (tok : Token) (now : Nat) :
    Db × Except HttpError StatusMessage :=
  match get_current_seller db tok now with
  | .error e => (db, .error e)
  | .ok current_user => delete_product db product_id current_user

/-- Body of POST and PUT /reviews per app/schemas.py ReviewCreate; all
three fields are required. -/
structure ReviewCreate where
  product_id : Nat
  comment : String
  grade : Int
deriving Repr, DecidableEq

/-- Grades of the active reviews of a product, the rows
update_product_rating averages. -/
def activeGrades (db : Db) (product_id : Nat) : List Int :=
  (db.reviews.filter (fun r => r.product_id == product_id && r.is_active)).map
    (fun r => r.grade)

/-- The avg the rating recomputation stores: select avg(grade) over the
product's active reviews, with SQL NULL (no rows) coerced to 0.0 by the
`or 0.0`. -/
def avgGrade (db : Db) (product_id : Nat) : Rat :=
  let grades := activeGrades db product_id
  if grades.length = 0 then 0
  else ((grades.foldr (fun g acc => g + acc) 0 : Int) : Rat) / (grades.length : Rat)

/-- update_product_rating (app/routers/reviews.py): recompute the avg of
the product's active review grades and store it in the product row's
rating. The source fetches the row by primary key and dereferences it
unconditionally, raising on a missing product; here a missing product
leaves the table unchanged, a case no committed caller reaches. -/
def update_product_rating (db : Db) (product_id : Nat) : Db :=
  let avg_rating := avgGrade db product_id
  let products2 := db.products.map fun p =>
    if p.id == product_id then { p with rating := avg_rating } else p
  { db with products := products2 }

/-- Autoincrement primary key for the reviews table. -/
def freshReviewId (db : Db) : Nat :=
  (db.reviews.map (fun r => r.id)).foldr max 0 + 1

/-- POST /reviews/ handler (app/routers/reviews.py create_review) after
the buyer gate resolved current_user: 404 when the product is missing or
inactive, 409 when the user already has an active review for it, else
insert the review and recompute the product's rating. -/
def create_review (db : Db) (review : ReviewCreate) (current_user : User)
    (now : Nat) : Db × Except HttpError Review :=
  match findActiveProduct db review.product_id with
  | none =>
    (db, .error { status := 404
                  detail := "Product with id " ++ toString review.product_id ++ " not found or inactive"
                  wwwAuthenticate := false })
  | some _ =>
    match db.reviews.find? (fun r =>
        r.product_id == review.product_id && r.user_id == current_user.id && r.is_active) with
    | some _ =>
      (db, .error { status := 409
                    detail := "You already left review for product " ++ toString review.product_id
                    wwwAuthenticate := false })
    | none =>
      let db_review : Review :=
        { id := freshReviewId db
          user_id := current_user.id
          product_id := review.product_id
          comment := review.comment
          comment_time := now
          change_time := now
          grade := review.grade
          is_active := true }
      let db1 : Db := { db with reviews := db.reviews ++ [db_review] }
      (update_product_rating db1 db_review.product_id, .ok db_review)

/-- The field update PUT /reviews/\x7breview_id\x7d applies to the
review row, change_time set to the request clock. -/
def applyReviewUpdate (r : Review) (review : ReviewCreate) (now : Nat) : Review :=
  { r with
    product_id := review.product_id
    comment := review.comment
    grade := review.grade
    change_time := now }

/-- PUT /reviews/\x7breview_id\x7d handler (app/routers/reviews.py
update_review) after the buyer gate resolved current_user: 404 when no
active review has the id, 403 when it belongs to another user, else
update the row and recompute the rating of the row's (possibly new)
product_id. -/
def update_review (db : Db) (review_id : Nat) (review : ReviewCreate)
    (current_user : User) (now : Nat) : Db × Except HttpError Review :=
  match db.reviews.find? (fun r => r.id == review_id && r.is_active) with
  | none =>
    (db, .error { status := 404
                  detail := "Product with id " ++ toString review_id ++ " not found or inactive"
                  wwwAuthenticate := false })
  | some db_review =>
    if db_review.user_id ≠ current_user.id then
      (db, .error { status := 403
                    detail := "No rights to change review " ++ toString review_id
                    wwwAuthenticate := false })
    else
      let reviews2 := db.reviews.map fun r =>
        if r.id == review_id then applyReviewUpdate r review now else r
      let db1 : Db := { db with reviews := reviews2 }
      (update_product_rating db1 (applyReviewUpdate db_review review now).product_id,
       .ok (applyReviewUpdate db_review review now))

/-- DELETE /reviews/\x7breview_id\x7d handler (app/routers/reviews.py
delete_review) after get_current_user resolved current_user: 404 when no
active review has the id, 403 unless the caller owns it as a buyer or is
an admin, else mark it inactive and recompute the product's rating. -/
def delete_review (db : Db) (review_id : Nat) (current_user : User) :
    Db × Except HttpError StatusMessage :=
  match db.reviews.find? (fun r => r.id == review_id && r.is_active) with
  | none =>
    (db, .error { status := 404
                  detail := "Product with id " ++ toString review_id ++ " not found or inactive"
                  wwwAuthenticate := false })
  | some db_review =>
    if ¬(db_review.user_id = current_user.id ∧ current_user.role = "buyer")
        ∧ ¬(current_user.role = "admin") then
      (db, .error { status := 403
                    detail := "No rights to delete review " ++ toString review_id
                    wwwAuthenticate := false })
    else
      let reviews2 := db.reviews.map fun r =>
        if r.id == review_id then { r with is_active := false } else r
      let db1 : Db := { db with reviews := reviews2 }
      (update_product_rating db1 db_review.product_id,
       .ok { status := "success", message := "Review deleted" })

/-- The rating stored on the (first) product row with the given id. -/
def productRating (db : Db) (product_id : Nat) : Option Rat :=
  (db.products.find? (fun p => p.id == product_id)).map (fun p => p.rating)

/-- Routes of app/routers/users.py as (method, path) pairs under the
router's /users prefix. -/
def users_router_routes : List (String × String) :=
  [("POST", "/users/"),
   ("POST", "/users/token"),
   ("PUT", "/users/\x7buser_id\x7d"),
   ("POST", "/users/refresh-token"),
   ("POST", "/users/access-token")]

/-- Routes of app/routers/products.py under the /products prefix. -/
def products_router_routes : List (String × String) :=
  [("GET", "/products/"),
   ("POST", "/products/"),
   ("GET", "/products/category/\x7bcategory_id\x7d"),
   ("GET", "/products/\x7bproduct_id\x7d"),
   ("PUT", "/products/\x7bproduct_id\x7d"),
   ("DELETE", "/products/\x7bproduct_id\x7d")]

/-- Routes of app/routers/reviews.py under the /reviews prefix. -/
def reviews_router_routes : List (String × String) :=
  [("GET", "/reviews/"),
   ("GET", "/reviews/products/\x7bproduct_id\x7d"),
   ("POST", "/reviews/"),
   ("PUT", "/reviews/\x7breview_id\x7d"),
   ("DELETE", "/reviews/\x7breview_id\x7d")]

/-- Routes of app/routers/categories.py under the /categories prefix. -/
def categories_router_routes : List (String × String) :=
  [("GET", "/categories/"),
   ("POST", "/categories/"),
   ("PUT", "/categories/\x7bcategory_id\x7d"),
   ("DELETE", "/categories/\x7bcategory_id\x7d")]

/-- The app's mounted HTTP surface per app/main.py: the root route plus
the one router it includes, app.include_router(categories.router). The
users, products and reviews routers are defined but never included. -/
def app_routes : List (String × String) :=
  ("GET", "/") :: categories_router_routes

/-- Verification failure condition shared by the two refresh-token
endpoints: unparsable or badly signed token, expired signature, missing
sub claim, token_type other than "refresh", or no active account with
the sub email. -/
def refreshVerificationFails (db : Db) (tok : Token) (now : Nat) : Prop :=
  match tok with
  | .invalid _ => True
  | .signed p =>
    p.exp < now ∨ p.sub = none ∨ p.token_type ≠ some "refresh" ∨
      ∃ email, p.sub = some email ∧ findActiveUserByEmail db email = none

lemma refresh_token_error_iff (db : Db) (tok : Token) (now : Nat) :
    (refresh_token db tok now).2 = Except.error credentials_exception ↔
      refreshVerificationFails db tok now := by
  cases tok with
  | invalid s => simp [refresh_token, jwt_decode, refreshVerificationFails]
  | signed p =>
    by_cases hexp : p.exp < now
    · simp [refresh_token, jwt_decode, hexp, refreshVerificationFails]
    · rcases hsub : p.sub with _ | email
      · simp [refresh_token, jwt_decode, hexp, refreshVerificationFails, hsub]
      · by_cases htt : p.token_type = some "refresh"
        · rcases hfind : findActiveUserByEmail db email with _ | user <;>
            simp [refresh_token, jwt_decode, hexp, refreshVerificationFails, hsub, htt, hfind]
        · simp [refresh_token, jwt_decode, hexp, refreshVerificationFails, hsub, htt]

lemma access_token_error_iff (db : Db) (tok : Token) (now : Nat) :
    (access_token db tok now).2 = Except.error credentials_exception ↔
      refreshVerificationFails db tok now := by
  cases tok with
  | invalid s => simp [access_token, jwt_decode, refreshVerificationFails]
  | signed p =>
    by_cases hexp : p.exp < now
    · simp [access_token, jwt_decode, hexp, refreshVerificationFails]
    · rcases hsub : p.sub with _ | email
      · simp [access_token, jwt_decode, hexp, refreshVerificationFails, hsub]
      · by_cases htt : p.token_type = some "refresh"
        · rcases hfind : findActiveUserByEmail db email with _ | user <;>
            simp [access_token, jwt_decode, hexp, refreshVerificationFails, hsub, htt, hfind]
        · simp [access_token, jwt_decode, hexp, refreshVerificationFails, hsub, htt]

lemma refresh_token_error_eq (db : Db) (tok : Token) (now : Nat) (e : HttpError) :
    (refresh_token db tok now).2 = Except.error e → e = credentials_exception := by
  intro h
  unfold refresh_token at h
  repeat' split at h
  all_goals simp_all

lemma access_token_error_eq (db : Db) (tok : Token) (now : Nat) (e : HttpError) :
    (access_token db tok now).2 = Except.error e → e = credentials_exception := by
  intro h
  unfold access_token at h
  repeat' split at h
  all_goals simp_all

/-- C1: every verification failure of POST /users/refresh-token or POST
/users/access-token — expired signature, invalid signature or unparsable
token, missing sub claim, token_type not "refresh", or no active account
for the sub email — yields the identical generic response: 401, detail
"Could not validate refresh token", header WWW-Authenticate Bearer,
regardless of which check failed. -/
theorem refresh_endpoints_single_generic_401 :
    ∀ (db : Db) (tok : Token) (now : Nat),
      ((refresh_token db tok now).2 = Except.error credentials_exception ↔
        refreshVerificationFails db tok now) ∧
      ((access_token db tok now).2 = Except.error credentials_exception ↔
        refreshVerificationFails db tok now) ∧
      (∀ e, (refresh_token db tok now).2 = Except.error e → e = credentials_exception) ∧
      (∀ e, (access_token db tok now).2 = Except.error e → e = credentials_exception) ∧
      credentials_exception.status = 401 ∧
      credentials_exception.detail = "Could not validate refresh token" ∧
      credentials_exception.wwwAuthenticate = true := by
  intro db tok now
  exact ⟨refresh_token_error_iff db tok now, access_token_error_iff db tok now,
    fun e => refresh_token_error_eq db tok now e,
    fun e => access_token_error_eq db tok now e, rfl, rfl, rfl⟩

/-- Witness for C1 at a concrete unparsable token and empty store. -/
theorem refresh_endpoints_single_generic_401_witness :
    (refresh_token ⟨[], [], [], []⟩ (Token.invalid "garbage") 0).2 =
      Except.error credentials_exception :=
  (refresh_endpoints_single_generic_401 ⟨[], [], [], []⟩ (Token.invalid "garbage") 0).1.mpr
    (by simp [refreshVerificationFails])

lemma refresh_token_fst (db : Db) (tok : Token) (now : Nat) :
    (refresh_token db tok now).1 = db := by
  unfold refresh_token
  repeat' split
  all_goals rfl

lemma access_token_fst (db : Db) (tok : Token) (now : Nat) :
    (access_token db tok now).1 = db := by
  unfold access_token
  repeat' split
  all_goals rfl

/-- C2: a correctly signed, unexpired refresh token whose sub email has
no active account at use time is rejected with the generic 401 by both
refresh-token endpoints: active status is re-read from the store on
every use, never trusted from the claims. -/
theorem refresh_endpoints_recheck_active_account :
    ∀ (db : Db) (p : JwtPayload) (now : Nat) (email : String),
      p.sub = some email →
      p.token_type = some "refresh" →
      now ≤ p.exp →
      findActiveUserByEmail db email = none →
      refresh_token db (Token.signed p) now = (db, Except.error credentials_exception) ∧
      access_token db (Token.signed p) now = (db, Except.error credentials_exception) := by
  intro db p now email hsub htt hexp hfind
  have hexp2 : ¬p.exp < now := Nat.not_lt.mpr hexp
  constructor
  · simp [refresh_token, jwt_decode, hexp2, hsub, htt, hfind]
  · simp [access_token, jwt_decode, hexp2, hsub, htt, hfind]

/-- Witness for C2: a deactivated account whose still-live refresh token
is refused by both endpoints. -/
theorem refresh_endpoints_recheck_active_account_witness :
    refresh_token
        ⟨[{ id := 1, email := "a@x.com", hashed_password := "h", role := "buyer", is_active := false }], [], [], []⟩
        (Token.signed { sub := some "a@x.com", role := some "buyer", uid := some 1, token_type := some "refresh", exp := 100 })
        7 =
      (⟨[{ id := 1, email := "a@x.com", hashed_password := "h", role := "buyer", is_active := false }], [], [], []⟩,
        Except.error credentials_exception) ∧
    access_token
        ⟨[{ id := 1, email := "a@x.com", hashed_password := "h", role := "buyer", is_active := false }], [], [], []⟩
        (Token.signed { sub := some "a@x.com", role := some "buyer", uid := some 1, token_type := some "refresh", exp := 100 })
        7 =
      (⟨[{ id := 1, email := "a@x.com", hashed_password := "h", role := "buyer", is_active := false }], [], [], []⟩,
        Except.error credentials_exception) :=
  refresh_endpoints_recheck_active_account
    ⟨[{ id := 1, email := "a@x.com", hashed_password := "h", role := "buyer", is_active := false }], [], [], []⟩
    { sub := some "a@x.com", role := some "buyer", uid := some 1, token_type := some "refresh", exp := 100 }
    7 "a@x.com" rfl rfl (by decide) rfl

/-- C3: a successful POST /users/refresh-token leaves the store exactly
as it was, and the old refresh token presented in the request still
exchanges successfully at any time at which it is not yet expired, for
as long as the store (and so the account's active flag) is unchanged:
re-issuing never invalidates the old token. -/
theorem refresh_token_no_write_old_token_reusable :
    ∀ (db : Db) (tok : Token) (now : Nat) (r : RefreshResponse),
      (refresh_token db tok now).2 = Except.ok r →
      (refresh_token db tok now).1 = db ∧
      (∀ now2, tokenLive tok now2 →
        ∃ r2, refresh_token db tok now2 = (db, Except.ok r2)) := by
  intro db tok now r h
  refine ⟨refresh_token_fst db tok now, ?_⟩
  intro now2 hlive
  cases tok with
  | invalid s => exact hlive.elim
  | signed p =>
    have hexp2 : ¬p.exp < now2 := Nat.not_lt.mpr hlive
    by_cases hexp : p.exp < now
    · simp [refresh_token, jwt_decode, hexp] at h
    · rcases hsub : p.sub with _ | email
      · simp [refresh_token, jwt_decode, hexp, hsub] at h
      · by_cases htt : p.token_type = some "refresh"
        · rcases hfind : findActiveUserByEmail db email with _ | user
          · simp [refresh_token, jwt_decode, hexp, hsub, htt, hfind] at h
          · exact ⟨{ refresh_token := create_refresh_token user.email user.role user.id now2,
                     token_type := "bearer" },
              by simp [refresh_token, jwt_decode, hexp2, hsub, htt, hfind]⟩
        · simp [refresh_token, jwt_decode, hexp, hsub, htt] at h

/-- Witness for C3: a concrete successful refresh, after which the same
old token exchanges again much later, while still unexpired. -/
theorem refresh_token_no_write_old_token_reusable_witness :
    (refresh_token
        ⟨[{ id := 1, email := "a@x.com", hashed_password := "h", role := "buyer", is_active := true }], [], [], []⟩
        (Token.signed { sub := some "a@x.com", role := some "buyer", uid := some 1, token_type := some "refresh", exp := 10080 })
        0).1 =
      ⟨[{ id := 1, email := "a@x.com", hashed_password := "h", role := "buyer", is_active := true }], [], [], []⟩ ∧
    ∃ r2, refresh_token
        ⟨[{ id := 1, email := "a@x.com", hashed_password := "h", role := "buyer", is_active := true }], [], [], []⟩
        (Token.signed { sub := some "a@x.com", role := some "buyer", uid := some 1, token_type := some "refresh", exp := 10080 })
        9999 =
      (⟨[{ id := 1, email := "a@x.com", hashed_password := "h", role := "buyer", is_active := true }], [], [], []⟩,
        Except.ok r2) :=
  have h := refresh_token_no_write_old_token_reusable
    ⟨[{ id := 1, email := "a@x.com", hashed_password := "h", role := "buyer", is_active := true }], [], [], []⟩
    (Token.signed { sub := some "a@x.com", role := some "buyer", uid := some 1, token_type := some "refresh", exp := 10080 })
    0
    { refresh_token := create_refresh_token "a@x.com" "buyer" 1 0, token_type := "bearer" }
    rfl
  ⟨h.1, h.2 9999 (by decide)⟩

/-- C5: a correctly signed, unexpired token carrying a sub claim but a
token_type other than "refresh" — in particular an access token, whose
payload has no token_type marker — is rejected with 401 by both
refresh-token endpoints. -/
theorem wrong_token_type_rejected :
    ∀ (db : Db) (p : JwtPayload) (now : Nat) (email : String),
      p.sub = some email →
      now ≤ p.exp →
      p.token_type ≠ some "refresh" →
      refresh_token db (Token.signed p) now = (db, Except.error credentials_exception) ∧
      access_token db (Token.signed p) now = (db, Except.error credentials_exception) := by
  intro db p now email hsub hexp htt
  have hexp2 : ¬p.exp < now := Nat.not_lt.mpr hexp
  constructor
  · simp [refresh_token, jwt_decode, hexp2, hsub, htt]
  · simp [access_token, jwt_decode, hexp2, hsub, htt]

/-- Witness for C5: a freshly issued access token (token_type absent) is
refused by both refresh-token endpoints even though an active account
matches its sub. -/
theorem wrong_token_type_rejected_witness :
    refresh_token
        ⟨[{ id := 1, email := "a@x.com", hashed_password := "h", role := "buyer", is_active := true }], [], [], []⟩
        (create_access_token "a@x.com" "buyer" 1 0) 5 =
      (⟨[{ id := 1, email := "a@x.com", hashed_password := "h", role := "buyer", is_active := true }], [], [], []⟩,
        Except.error credentials_exception) ∧
    access_token
        ⟨[{ id := 1, email := "a@x.com", hashed_password := "h", role := "buyer", is_active := true }], [], [], []⟩
        (create_access_token "a@x.com" "buyer" 1 0) 5 =
      (⟨[{ id := 1, email := "a@x.com", hashed_password := "h", role := "buyer", is_active := true }], [], [], []⟩,
        Except.error credentials_exception) :=
  wrong_token_type_rejected
    ⟨[{ id := 1, email := "a@x.com", hashed_password := "h", role := "buyer", is_active := true }], [], [], []⟩
    { sub := some "a@x.com", role := some "buyer", uid := some 1, token_type := none, exp := ACCESS_TOKEN_EXPIRE }
    5 "a@x.com" rfl (by decide) (by decide)

/-- C6: POST /users/token issues an access/refresh pair with
token_type "bearer" when an active account matches the form's username
and the password verifies against its stored hash, embedding the
account's email as sub, its role, and its numeric id in both payloads;
otherwise it fails with 401 carrying the WWW-Authenticate Bearer header. -/
theorem login_issues_tokens_or_generic_401 :
    ∀ (db : Db) (username password : String) (now : Nat),
      (∀ u, findActiveUserByEmail db username = some u →
        (verify_password password u.hashed_password = true →
          login db username password now = Except.ok
            { access_token := Token.signed
                { sub := some u.email, role := some u.role, uid := some u.id,
                  token_type := none, exp := now + ACCESS_TOKEN_EXPIRE }
              refresh_token := Token.signed
                { sub := some u.email, role := some u.role, uid := some u.id,
                  token_type := some "refresh", exp := now + REFRESH_TOKEN_EXPIRE }
              token_type := "bearer" }) ∧
        (verify_password password u.hashed_password = false →
          login db username password now = Except.error incorrect_credentials)) ∧
      (findActiveUserByEmail db username = none →
        login db username password now = Except.error incorrect_credentials) ∧
      incorrect_credentials.status = 401 ∧
      incorrect_credentials.wwwAuthenticate = true := by
  intro db username password now
  refine ⟨?_, ?_, rfl, rfl⟩
  · intro u hfind
    constructor
    · intro hv
      simp [login, hfind, hv, create_access_token, create_refresh_token]
    · intro hv
      simp [login, hfind, hv]
  · intro hfind
    simp [login, hfind]

/-- Witness for C6: a concrete active account logging in with the right
password receives the bearer token pair. -/
theorem login_issues_tokens_or_generic_401_witness :
    login
        ⟨[{ id := 1, email := "a@x.com", hashed_password := hash_password "password123",
            role := "buyer", is_active := true }], [], [], []⟩
        "a@x.com" "password123" 0 =
      Except.ok
        { access_token := Token.signed
            { sub := some "a@x.com", role := some "buyer", uid := some 1,
              token_type := none, exp := ACCESS_TOKEN_EXPIRE }
          refresh_token := Token.signed
            { sub := some "a@x.com", role := some "buyer", uid := some 1,
              token_type := some "refresh", exp := REFRESH_TOKEN_EXPIRE }
          token_type := "bearer" } :=
  ((login_issues_tokens_or_generic_401
      ⟨[{ id := 1, email := "a@x.com", hashed_password := hash_password "password123",
          role := "buyer", is_active := true }], [], [], []⟩
      "a@x.com" "password123" 0).1
    { id := 1, email := "a@x.com", hashed_password := hash_password "password123",
      role := "buyer", is_active := true }
    rfl).1 rfl

/-- C7: POST /users/ fails with 409 and leaves the store untouched when
any row already carries the email, and otherwise appends exactly one new
active row with the given email, the hash of the given password, and the
given role. -/
theorem create_user_unique_email :
    ∀ (db : Db) (u : UserCreate),
      ((∃ x ∈ db.users, x.email = u.email) →
        create_user db u =
          (db, Except.error
            { status := 409, detail := "Email already registered", wwwAuthenticate := false })) ∧
      ((∀ x ∈ db.users, x.email ≠ u.email) →
        create_user db u =
          ({ db with users := db.users ++ [newUserRow db u] }, Except.ok (newUserRow db u))) ∧
      (newUserRow db u).email = u.email ∧
      (newUserRow db u).hashed_password = hash_password u.password ∧
      (newUserRow db u).role = u.role ∧
      (newUserRow db u).is_active = true := by
  intro db u
  refine ⟨?_, ?_, rfl, rfl, rfl, rfl⟩
  · intro hex
    rcases hfind : db.users.find? (fun x => x.email == u.email) with _ | y
    · rw [List.find?_eq_none] at hfind
      obtain ⟨x, hx, he⟩ := hex
      exact absurd (by simp [he] : (fun x => x.email == u.email) x = true) (hfind x hx)
    · simp [create_user, hfind]
  · intro hnone
    have hfind : db.users.find? (fun x => x.email == u.email) = none := by
      rw [List.find?_eq_none]
      intro x hx
      simp [hnone x hx]
    simp [create_user, hfind]

/-- Witness for C7: registering into a store already holding the email
is refused with 409 and no change; registering a fresh email into an
empty store appends exactly that one row. -/
theorem create_user_unique_email_witness :
    create_user
        ⟨[{ id := 1, email := "a@x.com", hashed_password := "h", role := "buyer", is_active := true }], [], [], []⟩
        { email := "a@x.com", password := "password123", role := "seller" } =
      (⟨[{ id := 1, email := "a@x.com", hashed_password := "h", role := "buyer", is_active := true }], [], [], []⟩,
        Except.error { status := 409, detail := "Email already registered", wwwAuthenticate := false }) ∧
    create_user ⟨[], [], [], []⟩ { email := "b@x.com", password := "password123", role := "buyer" } =
      (⟨[newUserRow ⟨[], [], [], []⟩ { email := "b@x.com", password := "password123", role := "buyer" }], [], [], []⟩,
        Except.ok (newUserRow ⟨[], [], [], []⟩ { email := "b@x.com", password := "password123", role := "buyer" })) :=
  ⟨(create_user_unique_email
      ⟨[{ id := 1, email := "a@x.com", hashed_password := "h", role := "buyer", is_active := true }], [], [], []⟩
      { email := "a@x.com", password := "password123", role := "seller" }).1
    ⟨{ id := 1, email := "a@x.com", hashed_password := "h", role := "buyer", is_active := true },
      by simp, rfl⟩,
   (create_user_unique_email ⟨[], [], [], []⟩
      { email := "b@x.com", password := "password123", role := "buyer" }).2.1
    (by simp)⟩

/-- C10: POST /users/token answers the very same generic 401 "Incorrect
email or password" whether every account with the email is deactivated
(the lookup filters on the active flag), no account has the email, or an
active account exists but the password is wrong — the three causes are
indistinguishable on the wire. -/
theorem login_inactive_like_wrong_password :
    ∀ (db : Db) (email password : String) (now : Nat),
      ((∀ x ∈ db.users, x.email = email → x.is_active = false) →
        login db email password now = Except.error incorrect_credentials) ∧
      ((∀ x ∈ db.users, x.email ≠ email) →
        login db email password now = Except.error incorrect_credentials) ∧
      (∀ u, findActiveUserByEmail db email = some u →
        verify_password password u.hashed_password = false →
        login db email password now = Except.error incorrect_credentials) ∧
      incorrect_credentials =
        { status := 401, detail := "Incorrect email or password", wwwAuthenticate := true } := by
  intro db email password now
  refine ⟨?_, ?_, ?_, rfl⟩
  · intro hinact
    have hfind : findActiveUserByEmail db email = none := by
      rw [findActiveUserByEmail, List.find?_eq_none]
      intro x hx
      simp only [Bool.and_eq_true, beq_iff_eq, not_and]
      intro he
      simp [hinact x hx he]
    simp [login, hfind]
  · intro hne
    have hfind : findActiveUserByEmail db email = none := by
      rw [findActiveUserByEmail, List.find?_eq_none]
      intro x hx
      simp [hne x hx]
    simp [login, hfind]
  · intro u hfind hv
    simp [login, hfind, hv]

/-- Witness for C10: the three failure causes at concrete stores all
produce the identical 401 response. -/
theorem login_inactive_like_wrong_password_witness :
    login
        ⟨[{ id := 1, email := "a@x.com", hashed_password := hash_password "password123",
            role := "buyer", is_active := false }], [], [], []⟩
        "a@x.com" "password123" 0 = Except.error incorrect_credentials ∧
    login ⟨[], [], [], []⟩ "a@x.com" "password123" 0 = Except.error incorrect_credentials ∧
    login
        ⟨[{ id := 1, email := "a@x.com", hashed_password := hash_password "password123",
            role := "buyer", is_active := true }], [], [], []⟩
        "a@x.com" "wrongpassword" 0 = Except.error incorrect_credentials :=
  ⟨(login_inactive_like_wrong_password
      ⟨[{ id := 1, email := "a@x.com", hashed_password := hash_password "password123",
          role := "buyer", is_active := false }], [], [], []⟩
      "a@x.com" "password123" 0).1 (by decide),
   (login_inactive_like_wrong_password ⟨[], [], [], []⟩ "a@x.com" "password123" 0).2.1 (by decide),
   (login_inactive_like_wrong_password
      ⟨[{ id := 1, email := "a@x.com", hashed_password := hash_password "password123",
          role := "buyer", is_active := true }], [], [], []⟩
      "a@x.com" "wrongpassword" 0).2.2.1
    { id := 1, email := "a@x.com", hashed_password := hash_password "password123",
      role := "buyer", is_active := true }
    rfl (by decide)⟩

lemma get_current_seller_role (db : Db) (tok : Token) (now : Nat) (u : User)
    (h : get_current_seller db tok now = Except.ok u) : u.role = "seller" := by
  unfold get_current_seller at h
  rcases hgu : get_current_user db tok now with e | user <;> rw [hgu] at h
  · simp at h
  · by_cases hr : user.role == "seller"
    · simp [hr] at h
      exact h ▸ beq_iff_eq.mp hr
    · simp [hr] at h

/-- C8: for PUT and DELETE /products/\x7bproduct_id\x7d, once the
seller role gate has resolved the caller, a product that exists and is
active but whose seller_id differs from the resolved account's id makes
the operation fail with 403 and leaves the store — in particular the
product row — unchanged; the ownership check compares the row's
seller_id to the resolved account's id. -/
theorem product_mutations_ownership_403 :
    ∀ (db : Db) (product_id : Nat) (product : ProductCreate) (tok : Token)
      (now : Nat) (u : User) (prod : Product),
      get_current_seller db tok now = Except.ok u →
      findActiveProduct db product_id = some prod →
      prod.seller_id ≠ u.id →
      u.role = "seller" ∧
      update_product_route db product_id product tok now =
        (db, Except.error
          { status := 403, detail := "You can only update your own products", wwwAuthenticate := false }) ∧
      delete_product_route db product_id tok now =
        (db, Except.error
          { status := 403, detail := "You can only delete your own products", wwwAuthenticate := false }) := by
  intro db product_id product tok now u prod hgate hprod hne
  refine ⟨get_current_seller_role db tok now u hgate, ?_, ?_⟩
  · simp [update_product_route, hgate, update_product, hprod, hne]
  · simp [delete_product_route, hgate, delete_product, hprod, hne]

/-- Witness for C8: a seller authenticated with a fresh access token
gets 403 from both mutations on another seller's product, the store
unchanged. -/
theorem product_mutations_ownership_403_witness :
    update_product_route
        ⟨[{ id := 1, email := "s@x.com", hashed_password := "h", role := "seller", is_active := true }],
         [{ id := 10, name := "widget", description := none, price := 5, image_url := none,
            stock := 3, category_id := 1, seller_id := 2, rating := 0, is_active := true }],
         [{ id := 1, name := "tools", parent_id := none, is_active := true }], []⟩
        10
        { name := "widget2", description := none, price := 6, image_url := none, stock := 3, category_id := 1 }
        (create_access_token "s@x.com" "seller" 1 0) 5 =
      (⟨[{ id := 1, email := "s@x.com", hashed_password := "h", role := "seller", is_active := true }],
        [{ id := 10, name := "widget", description := none, price := 5, image_url := none,
           stock := 3, category_id := 1, seller_id := 2, rating := 0, is_active := true }],
        [{ id := 1, name := "tools", parent_id := none, is_active := true }], []⟩,
       Except.error
         { status := 403, detail := "You can only update your own products", wwwAuthenticate := false }) ∧
    delete_product_route
        ⟨[{ id := 1, email := "s@x.com", hashed_password := "h", role := "seller", is_active := true }],
         [{ id := 10, name := "widget", description := none, price := 5, image_url := none,
            stock := 3, category_id := 1, seller_id := 2, rating := 0, is_active := true }],
         [{ id := 1, name := "tools", parent_id := none, is_active := true }], []⟩
        10 (create_access_token "s@x.com" "seller" 1 0) 5 =
      (⟨[{ id := 1, email := "s@x.com", hashed_password := "h", role := "seller", is_active := true }],
        [{ id := 10, name := "widget", description := none, price := 5, image_url := none,
           stock := 3, category_id := 1, seller_id := 2, rating := 0, is_active := true }],
        [{ id := 1, name := "tools", parent_id := none, is_active := true }], []⟩,
       Except.error
         { status := 403, detail := "You can only delete your own products", wwwAuthenticate := false }) :=
  have h := product_mutations_ownership_403
    ⟨[{ id := 1, email := "s@x.com", hashed_password := "h", role := "seller", is_active := true }],
     [{ id := 10, name := "widget", description := none, price := 5, image_url := none,
        stock := 3, category_id := 1, seller_id := 2, rating := 0, is_active := true }],
     [{ id := 1, name := "tools", parent_id := none, is_active := true }], []⟩
    10
    { name := "widget2", description := none, price := 6, image_url := none, stock := 3, category_id := 1 }
    (create_access_token "s@x.com" "seller" 1 0) 5
    { id := 1, email := "s@x.com", hashed_password := "h", role := "seller", is_active := true }
    { id := 10, name := "widget", description := none, price := 5, image_url := none,
      stock := 3, category_id := 1, seller_id := 2, rating := 0, is_active := true }
    rfl rfl (by decide)
  ⟨h.2.1, h.2.2⟩

lemma productRating_update_product_rating (db : Db) (pid : Nat) (q : Product)
    (hq : db.products.find? (fun p => p.id == pid) = some q) :
    productRating (update_product_rating db pid) pid = some (avgGrade db pid) := by
  have hcomp : ((fun p : Product => p.id == pid) ∘
      (fun p : Product => if p.id == pid then { p with rating := avgGrade db pid } else p)) =
      fun p : Product => p.id == pid := by
    funext p
    by_cases h : p.id = pid
    · simp [h]
    · simp [h]
  have hqid := List.find?_some hq
  unfold productRating update_product_rating
  rw [List.find?_map, hcomp, hq]
  simp [beq_iff_eq.mp hqid]

lemma avgGrade_update_product_rating (db : Db) (pid pid2 : Nat) :
    avgGrade (update_product_rating db pid) pid2 = avgGrade db pid2 := rfl

lemma exists_find_id_of_findActive (db : Db) (pid : Nat) (prod : Product)
    (h : findActiveProduct db pid = some prod) :
    ∃ q, db.products.find? (fun p => p.id == pid) = some q := by
  unfold findActiveProduct at h
  have hmem := List.mem_of_find?_eq_some h
  have hpred := List.find?_some h
  have hs : (db.products.find? (fun p => p.id == pid)).isSome := by
    rw [List.find?_isSome]
    refine ⟨prod, hmem, ?_⟩
    simp only [Bool.and_eq_true] at hpred
    exact hpred.1
  exact Option.isSome_iff_exists.mp hs

/-- C9: after each successful review mutation the affected product's
stored rating is exactly the recomputed average of that product's active
review grades on the resulting store — the arithmetic mean of the
grades, and 0 when the product has no active reviews. -/
theorem review_mutations_keep_rating_mean :
    ∀ (db : Db) (current_user : User) (now : Nat),
      (∀ rc db2 r, create_review db rc current_user now = (db2, Except.ok r) →
        productRating db2 r.product_id = some (avgGrade db2 r.product_id)) ∧
      (∀ review_id rc db2 r,
        update_review db review_id rc current_user now = (db2, Except.ok r) →
        (∃ q, db.products.find? (fun p => p.id == r.product_id) = some q) →
        productRating db2 r.product_id = some (avgGrade db2 r.product_id)) ∧
      (∀ review_id db2 m rv,
        delete_review db review_id current_user = (db2, Except.ok m) →
        db.reviews.find? (fun r => r.id == review_id && r.is_active) = some rv →
        (∃ q, db.products.find? (fun p => p.id == rv.product_id) = some q) →
        productRating db2 rv.product_id = some (avgGrade db2 rv.product_id)) ∧
      (∀ pid, avgGrade db pid =
        if activeGrades db pid = [] then 0
        else (((activeGrades db pid).foldr (fun g acc => g + acc) 0 : Int) : Rat) /
          ((activeGrades db pid).length : Rat)) := by
  intro db current_user now
  refine ⟨?_, ?_, ?_, ?_⟩
  · intro rc db2 r h
    unfold create_review at h
    rcases hfp : findActiveProduct db rc.product_id with _ | prod <;> rw [hfp] at h
    · simp at h
    · rcases hdup : db.reviews.find? (fun rv =>
          rv.product_id == rc.product_id && rv.user_id == current_user.id && rv.is_active)
        with _ | rv2 <;> rw [hdup] at h
      · simp only [Prod.mk.injEq, Except.ok.injEq] at h
        obtain ⟨h1, h2⟩ := h
        subst h1
        subst h2
        obtain ⟨q, hq⟩ := exists_find_id_of_findActive db rc.product_id prod hfp
        exact productRating_update_product_rating _ rc.product_id q hq
      · simp at h
  · intro review_id rc db2 r h hex
    unfold update_review at h
    rcases hfr : db.reviews.find? (fun rv => rv.id == review_id && rv.is_active)
        with _ | db_review <;> rw [hfr] at h
    · simp at h
    · simp only [] at h
      by_cases hown : db_review.user_id ≠ current_user.id
      · rw [if_pos hown] at h
        simp at h
      · rw [if_neg hown] at h
        simp only [Prod.mk.injEq, Except.ok.injEq] at h
        obtain ⟨h1, h2⟩ := h
        subst h1
        subst h2
        obtain ⟨q, hq⟩ := hex
        exact productRating_update_product_rating _ _ q hq
  · intro review_id db2 m rv h hfr hex
    unfold delete_review at h
    rw [hfr] at h
    simp only [] at h
    by_cases hperm : ¬(rv.user_id = current_user.id ∧ current_user.role = "buyer") ∧
        ¬(current_user.role = "admin")
    · rw [if_pos hperm] at h
      simp at h
    · rw [if_neg hperm] at h
      simp only [Prod.mk.injEq] at h
      obtain ⟨h1, h2⟩ := h
      subst h1
      obtain ⟨q, hq⟩ := hex
      exact productRating_update_product_rating _ _ q hq
  · intro pid
    by_cases h : activeGrades db pid = []
    · simp [avgGrade, h]
    · rw [if_neg h]
      have hlen : ¬(activeGrades db pid).length = 0 := by
        simpa [List.length_eq_zero] using h
      simp [avgGrade, hlen]

/-- Witness for C9: a buyer's first review with grade 4 on a concrete
product leaves the product's stored rating at the mean of its active
review grades, which is 4. -/
theorem review_mutations_keep_rating_mean_witness :
    create_review ⟨[],
        [{ id := 1, name := "widget", description := none, price := 5, image_url := none,
           stock := 3, category_id := 1, seller_id := 2, rating := 0, is_active := true }], [], []⟩
      { product_id := 1, comment := "ok", grade := 4 }
      { id := 7, email := "b@x.com", hashed_password := "h", role := "buyer", is_active := true }
      3 =
      (⟨[],
        [{ id := 1, name := "widget", description := none, price := 5, image_url := none,
           stock := 3, category_id := 1, seller_id := 2,
           rating := avgGrade ⟨[],
             [{ id := 1, name := "widget", description := none, price := 5, image_url := none,
                stock := 3, category_id := 1, seller_id := 2, rating := 0, is_active := true }], [],
             [{ id := 1, user_id := 7, product_id := 1, comment := "ok", comment_time := 3,
                change_time := 3, grade := 4, is_active := true }]⟩ 1,
           is_active := true }], [],
        [{ id := 1, user_id := 7, product_id := 1, comment := "ok", comment_time := 3,
           change_time := 3, grade := 4, is_active := true }]⟩,
       Except.ok
         { id := 1, user_id := 7, product_id := 1, comment := "ok", comment_time := 3,
           change_time := 3, grade := 4, is_active := true }) ∧
    productRating (⟨[],
        [{ id := 1, name := "widget", description := none, price := 5, image_url := none,
           stock := 3, category_id := 1, seller_id := 2,
           rating := avgGrade ⟨[],
             [{ id := 1, name := "widget", description := none, price := 5, image_url := none,
                stock := 3, category_id := 1, seller_id := 2, rating := 0, is_active := true }], [],
             [{ id := 1, user_id := 7, product_id := 1, comment := "ok", comment_time := 3,
                change_time := 3, grade := 4, is_active := true }]⟩ 1,
           is_active := true }], [],
        [{ id := 1, user_id := 7, product_id := 1, comment := "ok", comment_time := 3,
           change_time := 3, grade := 4, is_active := true }]⟩ : Db) 1 =
      some (avgGrade (⟨[],
        [{ id := 1, name := "widget", description := none, price := 5, image_url := none,
           stock := 3, category_id := 1, seller_id := 2,
           rating := avgGrade ⟨[],
             [{ id := 1, name := "widget", description := none, price := 5, image_url := none,
                stock := 3, category_id := 1, seller_id := 2, rating := 0, is_active := true }], [],
             [{ id := 1, user_id := 7, product_id := 1, comment := "ok", comment_time := 3,
                change_time := 3, grade := 4, is_active := true }]⟩ 1,
           is_active := true }], [],
        [{ id := 1, user_id := 7, product_id := 1, comment := "ok", comment_time := 3,
           change_time := 3, grade := 4, is_active := true }]⟩ : Db) 1) ∧
    avgGrade (⟨[],
        [{ id := 1, name := "widget", description := none, price := 5, image_url := none,
           stock := 3, category_id := 1, seller_id := 2,
           rating := avgGrade ⟨[],
             [{ id := 1, name := "widget", description := none, price := 5, image_url := none,
                stock := 3, category_id := 1, seller_id := 2, rating := 0, is_active := true }], [],
             [{ id := 1, user_id := 7, product_id := 1, comment := "ok", comment_time := 3,
                change_time := 3, grade := 4, is_active := true }]⟩ 1,
           is_active := true }], [],
        [{ id := 1, user_id := 7, product_id := 1, comment := "ok", comment_time := 3,
           change_time := 3, grade := 4, is_active := true }]⟩ : Db) 1 = 4 := by
  refine ⟨rfl, ?_, ?_⟩
  · exact (review_mutations_keep_rating_mean
      ⟨[],
        [{ id := 1, name := "widget", description := none, price := 5, image_url := none,
           stock := 3, category_id := 1, seller_id := 2, rating := 0, is_active := true }], [], []⟩
      { id := 7, email := "b@x.com", hashed_password := "h", role := "buyer", is_active := true }
      3).1
      { product_id := 1, comment := "ok", grade := 4 } _
      { id := 1, user_id := 7, product_id := 1, comment := "ok", comment_time := 3,
        change_time := 3, grade := 4, is_active := true }
      rfl
  · norm_num [avgGrade, activeGrades]

/-- C4: the mounted HTTP surface of the FastAPI app per app/main.py is
only the root route and the categories router; the documented auth,
product and review endpoints exist on their routers but are not routes
of the app, because main.py never includes those routers. -/
theorem app_mounts_only_categories :
    ("POST", "/users/token") ∉ app_routes ∧
    ("POST", "/users/refresh-token") ∉ app_routes ∧
    ("POST", "/users/access-token") ∉ app_routes ∧
    ("PUT", "/products/\x7bproduct_id\x7d") ∉ app_routes ∧
    ("DELETE", "/products/\x7bproduct_id\x7d") ∉ app_routes ∧
    ("POST", "/reviews/") ∉ app_routes ∧
    ("POST", "/users/token") ∈ users_router_routes ∧
    ("POST", "/users/refresh-token") ∈ users_router_routes ∧
    ("POST", "/users/access-token") ∈ users_router_routes ∧
    ("PUT", "/products/\x7bproduct_id\x7d") ∈ products_router_routes ∧
    ("DELETE", "/products/\x7bproduct_id\x7d") ∈ products_router_routes ∧
    ("POST", "/reviews/") ∈ reviews_router_routes ∧
    app_routes = ("GET", "/") :: categories_router_routes := by
  refine ⟨?_, ?_, ?_, ?_, ?_, ?_, ?_, ?_, ?_, ?_, ?_, ?_, rfl⟩ <;>
    simp [app_routes, categories_router_routes, users_router_routes,
      products_router_routes, reviews_router_routes]

end Shop
